import Mathlib

/-!
Shallow embedding of the free@home XMPP bridge core: the command
resolution engine (`parse`) and value-transformation dispatcher (`set`)
from `sysap-external`, and the session state machine / keepalive loop
from `sysap.js`.

Conventions of the embedding:
* JS numbers are modelled as `ℚ`; the JS value `NaN` (arising from
  arithmetic on `undefined`) is modelled by `none` in `Option ℚ`.
* A JS object used as a map is modelled as a function into `Option`;
  a missing property is `none`.
* A JS `TypeError` crash (property access on `undefined`) is modelled by
  `none` in the `Option` result of `set`, and by `POut.crash` in `parse`.
* Strings "0"/"1" produced by `value.substr(2)` in the movement-toggle
  and pulse branches serialize over the wire identically to the numbers
  0/1, so written values are kept numeric.
-/

namespace Sysap

/-- JS `parseInt` applied to a number: truncation toward zero. -/
def jsParseInt (q : ℚ) : ℤ := Int.tdiv q.num q.den

/-- A channel of an actuator: its datapoint map (`idp*`, `odp*`, `pm*`). -/
structure Channel where
  datapoints : String → Option ℚ

/-- An actuator entry of the state store (`data.getData('actuators')`). -/
structure Actuator where
  deviceId : String
  typeName : String
  serialNumber : String
  channels : String → Option Channel

/-- The state store: serial number to actuator. -/
def Store : Type := String → Option Actuator

/-- A value specification from the command table, one constructor per
shape the JS dispatcher distinguishes dynamically:
`num v` a plain number (`none` = NaN), `toggle` the string `'x'`,
`moveToggle dir` the strings `'x-0'`/`'x-1'`, `pulse dir` the strings
`'p-0'`/`'p-1'`, `delta neg mag` the strings `'+MAG'`/`'-MAG'`. -/
inductive ValueSpec where
  | num (v : Option ℚ)
  | toggle
  | moveToggle (dir : ℚ)
  | pulse (dir : ℚ)
  | delta (neg : Bool) (mag : ℚ)
deriving DecidableEq

/-- One outbound `RemoteInterface.setDatapoint` RPC write. -/
structure Write where
  serialnumber : String
  channel : String
  datapoint : String
  value : Option ℚ
deriving DecidableEq

/-- The observable effect of one call to `set`: the writes sent at once,
and the writes scheduled by `setTimeout` with their delays in ms
(`none` delay = NaN from a missing `pm0006`). -/
structure SetResult where
  sends : List Write
  scheduled : List (Option ℤ × Write)
deriving DecidableEq

/-- Embedding of the JS `set` function (sysap-external, lines 141-209):
resolves a symbolic value against the current store and emits the RPC
write; `none` models a TypeError crash on a missing actuator/channel. -/
def set (d : Store) (serialnumber channel datapoint : String)
    (value : ValueSpec) : Option SetResult :=
  match value with
  | .num v =>
      some ⟨[⟨serialnumber, channel, datapoint, v⟩], []⟩
  | .toggle =>
      match d serialnumber with
      | none => none
      | some a =>
        if a.deviceId = "9004" then
          -- thermostat
          match a.channels channel with
          | none => none
          | some ch =>
            let current := ch.datapoints "odp0006"
            some ⟨[⟨serialnumber, channel, datapoint,
              some (if current = some 1 then 0 else 1)⟩], []⟩
        else
          -- default: idp and odp share the id; swap the first letter
          match a.channels channel with
          | none => none
          | some ch =>
            let look := "o" ++ datapoint.drop 1
            let current := ch.datapoints look
            some ⟨[⟨serialnumber, channel, datapoint,
              some (if current = some 1 then 0 else 1)⟩], []⟩
  | .moveToggle dir =>
      -- toggle movement of shutters on and off
      -- odp0000 = 0, 1: not moving; 3: moving down; 2: moving up
      match d serialnumber with
      | none => none
      | some a =>
        match a.channels channel with
        | none => none
        | some ch =>
          if (ch.datapoints "odp0000" = some 2 ∧ dir = 0) ∨
             (ch.datapoints "odp0000" = some 3 ∧ dir = 1) then
            some ⟨[⟨serialnumber, channel, "idp0001", some 1⟩], []⟩
          else
            some ⟨[⟨serialnumber, channel, datapoint, some dir⟩], []⟩
  | .pulse dir =>
      -- activate actuator for 200ms + dead time (pm0006, motor delay)
      match d serialnumber with
      | none => none
      | some a =>
        match a.channels channel with
        | none => none
        | some ch =>
          let delay := (ch.datapoints "pm0006").map
            (fun p => 200 + jsParseInt p)
          some ⟨[⟨serialnumber, channel, datapoint, some dir⟩],
            [(delay, ⟨serialnumber, channel, "idp0001", some 1⟩)]⟩
  | .delta neg mag =>
      -- rise or lower set temperature; value is a difference to 21°C
      match d serialnumber with
      | none => none
      | some a =>
        match a.channels channel with
        | none => none
        | some ch =>
          let changeValue := if neg then -mag else mag
          some ⟨[⟨serialnumber, channel, datapoint,
            (ch.datapoints "odp0002").map
              (fun v => v + changeValue - 21)⟩], []⟩

/-- Rendering of a rational for log/result strings (display only). -/
def ratStr (q : ℚ) : String :=
  toString q.num ++ (if q.den = 1 then "" else "/" ++ toString q.den)

/-- Rendering of a value specification, mirroring the JS literal that the
command table stores and that the success message interpolates. -/
def specStr : ValueSpec → String
  | .num (some v) => ratStr v
  | .num none => "NaN"
  | .toggle => "x"
  | .moveToggle dir => "x-" ++ ratStr dir
  | .pulse dir => "p-" ++ ratStr dir
  | .delta neg mag => (if neg then "-" else "+") ++ ratStr mag

/-- One action of the command table: the single datapoint key and its
value specification. -/
structure ActionEntry where
  datapoint : String
  spec : ValueSpec
deriving DecidableEq

/-- One command-table entry: actions, plus the optional hardware
device-id allow-list (absent for virtual group/scene types). -/
structure CommandEntry where
  actions : String → Option ActionEntry
  deviceIds : Option (List String)

/-- The command table built inside `parse` (sysap-external, lines
26-98); it closes over the caller-supplied `value` in the dimmer and
thermostat `set` actions. -/
def commands (value : Option ℚ) : String → Option CommandEntry :=
  fun t =>
    if t = "switch" then some ⟨fun a =>
        if a = "on" then some ⟨"idp0000", .num (some 1)⟩
        else if a = "off" then some ⟨"idp0000", .num (some 0)⟩
        else if a = "toggle" then some ⟨"idp0000", .toggle⟩
        else none,
      some ["B002", "100E"]⟩
    else if t = "switchgroup" then some ⟨fun a =>
        if a = "on" then some ⟨"odp0002", .num (some 1)⟩
        else if a = "off" then some ⟨"odp0002", .num (some 0)⟩
        else if a = "toggle" then some ⟨"odp0002", .toggle⟩
        else none,
      none⟩
    else if t = "dimmer" then some ⟨fun a =>
        if a = "on" then some ⟨"idp0000", .num (some 1)⟩
        else if a = "off" then some ⟨"idp0000", .num (some 0)⟩
        else if a = "toggle" then some ⟨"idp0000", .toggle⟩
        else if a = "up" then some ⟨"idp0001", .num (some 9)⟩
        else if a = "down" then some ⟨"idp0001", .num (some 1)⟩
        else if a = "stop" then some ⟨"idp0001", .num (some 0)⟩
        else if a = "set" then some ⟨"idp0002", .num value⟩
        else none,
      some ["101C"]⟩
    else if t = "shutter" then some ⟨fun a =>
        if a = "up" then some ⟨"idp0000", .num (some 0)⟩
        else if a = "down" then some ⟨"idp0000", .num (some 1)⟩
        else if a = "toggle-up" then some ⟨"idp0000", .moveToggle 0⟩
        else if a = "toggle-down" then some ⟨"idp0000", .moveToggle 1⟩
        else if a = "pulse-up" then some ⟨"idp0000", .pulse 0⟩
        else if a = "pulse-down" then some ⟨"idp0000", .pulse 1⟩
        else if a = "stop" then some ⟨"idp0001", .num (some 1)⟩
        else none,
      some ["B001", "1013"]⟩
    else if t = "shuttergroup" then some ⟨fun a =>
        if a = "up" then some ⟨"odp0003", .num (some 0)⟩
        else if a = "down" then some ⟨"odp0003", .num (some 1)⟩
        else if a = "stop" then some ⟨"odp0004", .num (some 1)⟩
        else none,
      none⟩
    else if t = "scene" then some ⟨fun a =>
        if a = "set" then some ⟨"odp0000", .num (some 1)⟩
        else none,
      none⟩
    else if t = "thermostat" then some ⟨fun a =>
        if a = "toggle" then some ⟨"idp000B", .toggle⟩
        else if a = "set" then some ⟨"idp0007", .num (value.map (fun v => v - 21))⟩
        else if a = "up" then some ⟨"idp0007", .delta false (1/2)⟩
        else if a = "down" then some ⟨"idp0007", .delta true (1/2)⟩
        else if a = "on" then some ⟨"idp000B", .num (some 1)⟩
        else if a = "off" then some ⟨"idp000B", .num (some 0)⟩
        else if a = "eco-on" then some ⟨"idp0009", .num (some 1)⟩
        else if a = "eco-off" then some ⟨"idp0009", .num (some 0)⟩
        else none,
      none⟩
    else none

/-- The type-alias normalization at the top of `parse`: `blind` is a
synonym for `shutter`. -/
def aliasType (t : String) : String := if t = "blind" then "shutter" else t

/-- Outcome of `parse`: a returned error string, a success string with
the dispatched effects, or an uncaught TypeError. -/
inductive POut where
  | err (msg : String)
  | ok (msg : String) (eff : SetResult)
  | crash
deriving DecidableEq

/-- Embedding of the JS `parse` function (sysap-external, lines 22-131):
validates a request against the command table and the state store, then
resolves and dispatches through `set`. -/
def parse (actuators : Store) (type0 serialnumber channel action : String)
    (value : Option ℚ) : POut :=
  let type := aliasType type0
  match commands value type with
  | none => .err ("unknown command: \"" ++ type ++ "\"")
  | some entry =>
    match entry.actions action with
    | none => .err ("unknown action \"" ++ action ++ "\" for type \"" ++
        type ++ "\"")
    | some act =>
      match actuators serialnumber with
      | none => .err ("actuator \"" ++ serialnumber ++ "\" not found")
      | some actu =>
        let okDevice := match entry.deviceIds with
          | none => true
          | some ids => ids.contains actu.deviceId
        if okDevice then
          let sn := if type = "scene" then actu.serialNumber
            else serialnumber
          match set actuators sn channel act.datapoint act.spec with
          | none => .crash
          | some eff =>
            .ok ("set channel " ++ channel ++ " of " ++ type ++ " " ++
              sn ++ " (" ++ actu.typeName ++ ") to " ++ action ++ ": " ++
              sn ++ "/" ++ channel ++ "/" ++ act.datapoint ++ ": " ++
              specStr act.spec) eff
        else
          .err ("actuator \"" ++ serialnumber ++ "\" (" ++
            actu.typeName ++ ") is not of type \"" ++ type ++ "\"")

/-- An inbound frame, classified as in the stanza handler of `sysap.js`
(lines 32-74): a hub update push, an RPC result with its stanza id
(`none` = missing id attribute), a presence stanza tagged with whether
the presence handler confirms hub origin, or anything else. -/
inductive Frame where
  | update
  | rpcResult (id : Option Nat)
  | presence (isSysap : Bool)
  | unknown
deriving DecidableEq

/-- An observable call made by the stanza handler to its collaborators. -/
inductive Effect where
  | applyUpdate
  | publishStatus
  | applyResponse
  | subscribedCall
  | fullRefresh
  | logPing
  | logUnknown
deriving DecidableEq

/-- The mutable module state of `sysap.js`: the keepalive counter, the
id of the most recently sent ping, and the subscription latch. -/
structure Sess where
  count : Nat
  lastping : Option Nat
  subscribed : Bool
deriving DecidableEq

/-- The state of `sysap.js` at module load: `count = 0`, `lastping`
undefined, `subscribed = false`. -/
def initSess : Sess := ⟨0, none, false⟩

/-- Embedding of the `sysap.on('stanza', ...)` handler: classify an
inbound frame, update the state, and list the collaborator calls made. -/
def onStanza (s : Sess) : Frame → Sess × List Effect
  | .update => (s, [.applyUpdate, .publishStatus])
  | .rpcResult id =>
      if id = s.lastping then (s, [.logPing])
      else (s, [.applyResponse, .publishStatus])
  | .presence isSysap =>
      if isSysap ∧ ¬ s.subscribed then
        (⟨s.count, s.lastping, true⟩, [.subscribedCall, .fullRefresh])
      else (s, [])
  | .unknown => (s, [.logUnknown])

/-- Process a list of inbound frames in order, collecting all effects. -/
def runStanzas (s : Sess) : List Frame → Sess × List Effect
  | [] => (s, [])
  | f :: fs =>
      let p := onStanza s f
      let q := runStanzas p.1 fs
      (q.1, p.2 ++ q.2)

/-- Whether a frame is a presence frame that confirms the hub itself. -/
def isHubPresence : Frame → Bool
  | .presence b => b
  | _ => false

/-- Number of full-refresh requests (`sysap_internal.all()`) in an
effect list. -/
def countFullRefresh (es : List Effect) : Nat :=
  (es.filter (fun e => e = .fullRefresh)).length

/-- One outbound keepalive ping: its stanza id and the delay in ms
until the next `keepAlive` invocation armed right after the send. -/
structure PingMsg where
  id : Nat
  nextDelayMs : Nat
deriving DecidableEq

/-- Embedding of `keepAlive` (sysap.js, lines 82-98): increment the
counter, send a ping carrying it as stanza id, record it in `lastping`,
and re-arm the timer for 10 seconds. -/
def keepAlive (s : Sess) : Sess × PingMsg :=
  let c := s.count + 1
  (⟨c, some c, s.subscribed⟩, ⟨c, 10 * 1000⟩)

/-- Iterate the keepalive loop `n` times, collecting the pings sent. -/
def kaRun (s : Sess) : Nat → Sess × List PingMsg
  | 0 => (s, [])
  | n + 1 =>
      let p := keepAlive s
      let q := kaRun p.1 n
      (q.1, p.2 :: q.2)

/-- Whether a `parse` outcome is a returned validation-error string. -/
def isErr : POut → Bool
  | .err _ => true
  | _ => false

/-- The immediate writes of a successful `parse` outcome. -/
def sentWrites : POut → List Write
  | .ok _ e => e.sends
  | _ => []

/-- The scheduled writes of a successful `parse` outcome. -/
def scheduledWrites : POut → List (Option ℤ × Write)
  | .ok _ e => e.scheduled
  | _ => []

/-- Sample channel: a shutter currently moving up (`odp0000 = 2`),
motor delay 50 ms (`pm0006 = 50`). -/
def shutterUpChannel : Channel := ⟨fun dp =>
  if dp = "odp0000" then some 2
  else if dp = "pm0006" then some 50 else none⟩

/-- Sample actuator: a shutter actuator whose channel ch0 is moving up. -/
def shutterUpAct : Actuator :=
  ⟨"B001", "Jalousieaktor 4-fach, REG", "",
    fun c => if c = "ch0" then some shutterUpChannel else none⟩

/-- Sample channel: a stationary shutter (`odp0000 = 0`). -/
def shutterStillChannel : Channel :=
  ⟨fun dp => if dp = "odp0000" then some 0 else none⟩

/-- Sample actuator: a shutter actuator whose channel ch0 is stationary. -/
def shutterStillAct : Actuator :=
  ⟨"B001", "Jalousieaktor 4-fach, REG", "",
    fun c => if c = "ch0" then some shutterStillChannel else none⟩

/-- Sample channel: a switch that is currently on (`odp0000 = 1`). -/
def switchChannel : Channel :=
  ⟨fun dp => if dp = "odp0000" then some 1 else none⟩

/-- Sample actuator: a switch actuator whose channel ch0 is on. -/
def switchAct : Actuator :=
  ⟨"B002", "Schaltaktor 4-fach, 16A, REG", "",
    fun c => if c = "ch0" then some switchChannel else none⟩

/-- Sample channel with no datapoints at all. -/
def emptyChannel : Channel := ⟨fun _ => none⟩

/-- Sample actuator: a switch actuator with an empty datapoint map. -/
def bareSwitchAct : Actuator :=
  ⟨"B002", "Schaltaktor 4-fach, 16A, REG", "",
    fun c => if c = "ch0" then some emptyChannel else none⟩

/-- Sample channel: a thermostat that is on (`odp0006 = 1`) with a
current set temperature of 20.5°C (`odp0002 = 41/2`). -/
def thermoChannel : Channel := ⟨fun dp =>
  if dp = "odp0006" then some 1
  else if dp = "odp0002" then some (41 / 2) else none⟩

/-- Sample actuator: a thermostat (hardware type 9004). -/
def thermoAct : Actuator :=
  ⟨"9004", "Raumtemperaturregler", "",
    fun c => if c = "ch0" then some thermoChannel else none⟩

/-- Sample actuator: a virtual scene entry whose trigger datapoint
lives on the physical actuator PHYS1. -/
def sceneAct : Actuator := ⟨"4800", "Szene", "PHYS1", fun _ => none⟩

/-- Sample state store holding all the sample actuators. -/
def sampleStore : Store := fun s =>
  if s = "SH1" then some shutterUpAct
  else if s = "SH0" then some shutterStillAct
  else if s = "SW1" then some switchAct
  else if s = "SW2" then some bareSwitchAct
  else if s = "TH1" then some thermoAct
  else if s = "SC1" then some sceneAct
  else none

/-- C1: a movement toggle is rewritten to a stop (`idp0001 = 1`) exactly
when `odp0000` reports motion in the SAME direction as the request
(2 = moving up with an up toggle, 3 = moving down with a down toggle);
in every other case — no motion, or motion in the opposite direction —
the original datapoint and direction value are sent unchanged. -/
theorem c1_moveToggle_same_direction_stops (d : Store)
    (s c dp : String) (dir : ℚ) (a : Actuator) (ch : Channel)
    (hd : d s = some a) (hch : a.channels c = some ch) :
    (((ch.datapoints "odp0000" = some 2 ∧ dir = 0) ∨
      (ch.datapoints "odp0000" = some 3 ∧ dir = 1)) →
      set d s c dp (.moveToggle dir) =
        some ⟨[⟨s, c, "idp0001", some 1⟩], []⟩) ∧
    (¬ ((ch.datapoints "odp0000" = some 2 ∧ dir = 0) ∨
      (ch.datapoints "odp0000" = some 3 ∧ dir = 1)) →
      set d s c dp (.moveToggle dir) =
        some ⟨[⟨s, c, dp, some dir⟩], []⟩) := by
  constructor
  · intro h
    simp only [set, hd, hch]
    rw [if_pos h]
  · intro h
    simp only [set, hd, hch]
    rw [if_neg h]

/-- C1 witness: on the sample store, a toggle-up (`x-0`) while moving up
(`odp0000 = 2`) becomes a stop, and a toggle-down (`x-1`) while
stationary (`odp0000 = 0`) sends the raw down command. -/
theorem c1_moveToggle_same_direction_stops_witness :
    set sampleStore "SH1" "ch0" "idp0000" (.moveToggle 0) =
      some ⟨[⟨"SH1", "ch0", "idp0001", some 1⟩], []⟩ ∧
    set sampleStore "SH0" "ch0" "idp0000" (.moveToggle 1) =
      some ⟨[⟨"SH0", "ch0", "idp0000", some 1⟩], []⟩ := by
  constructor
  · exact (c1_moveToggle_same_direction_stops sampleStore "SH1" "ch0"
      "idp0000" 0 shutterUpAct shutterUpChannel rfl rfl).1 (by decide)
  · exact (c1_moveToggle_same_direction_stops sampleStore "SH0" "ch0"
      "idp0000" 1 shutterStillAct shutterStillChannel rfl rfl).2 (by decide)

/-- C1 counterexample to the claim as stated: with `odp0000 = 2` (moving
up) a down toggle (`x-1`, opposite direction) is NOT rewritten to a
stop; the code sends the raw down command `idp0000 = 1`. -/
theorem c1_opposite_direction_counterexample :
    set sampleStore "SH1" "ch0" "idp0000" (.moveToggle 1) =
      some ⟨[⟨"SH1", "ch0", "idp0000", some 1⟩], []⟩ ∧
    ¬ (set sampleStore "SH1" "ch0" "idp0000" (.moveToggle 1) =
      some ⟨[⟨"SH1", "ch0", "idp0001", some 1⟩], []⟩) := by
  constructor
  · decide
  · decide

/-- C2: a pulse request immediately sends the directional write (the
original datapoint with the direction value) and in addition schedules
exactly one stop write (`idp0001 = 1`) with a timer delay of exactly
`200 + D` ms, where `D` is the integer motor delay read from `pm0006`. -/
theorem c2_pulse_schedules_stop (d : Store) (s c dp : String) (dir : ℚ)
    (a : Actuator) (ch : Channel) (D : ℤ)
    (hd : d s = some a) (hch : a.channels c = some ch)
    (hpm : ch.datapoints "pm0006" = some (D : ℚ)) :
    set d s c dp (.pulse dir) =
      some ⟨[⟨s, c, dp, some dir⟩],
        [(some (200 + D), ⟨s, c, "idp0001", some 1⟩)]⟩ := by
  simp only [set, hd, hch, hpm, jsParseInt, Option.map_some',
    Rat.num_intCast, Rat.den_intCast, Nat.cast_one, Int.tdiv_one]

/-- C2 witness: on the sample store (`pm0006 = 50`), a pulse-down sends
the down command at once and schedules the stop 250 ms later. -/
theorem c2_pulse_schedules_stop_witness :
    set sampleStore "SH1" "ch0" "idp0000" (.pulse 1) =
      some ⟨[⟨"SH1", "ch0", "idp0000", some 1⟩],
        [(some 250, ⟨"SH1", "ch0", "idp0001", some 1⟩)]⟩ := by
  have h := c2_pulse_schedules_stop sampleStore "SH1" "ch0" "idp0000" 1
    shutterUpAct shutterUpChannel 50 rfl rfl (by decide)
  exact h.trans (by decide)

/-- C2 counterexample to the claim as stated: the pulse dispatch is not
silent before the timer — an immediate RPC write (the directional
command) is sent as well. -/
theorem c2_no_immediate_send_counterexample :
    set sampleStore "SH1" "ch0" "idp0000" (.pulse 1) =
      some ⟨[⟨"SH1", "ch0", "idp0000", some 1⟩],
        [(some 250, ⟨"SH1", "ch0", "idp0001", some 1⟩)]⟩ ∧
    ¬ ((set sampleStore "SH1" "ch0" "idp0000" (.pulse 1)).map
      SetResult.sends = some []) := by
  constructor
  · decide
  · decide

/-- C3: resolving a toggle (`'x'`) complements an output datapoint: for
the thermostat-class device (deviceId 9004) the channel's `odp0006`,
for every other actuator the datapoint whose key is the target with its
first letter replaced by `o`; the new value is 0 when that datapoint is
1 and 1 otherwise. -/
theorem c3_toggle_complement (d : Store) (s c dp : String)
    (a : Actuator) (ch : Channel)
    (hd : d s = some a) (hch : a.channels c = some ch) :
    (a.deviceId = "9004" →
      set d s c dp .toggle = some ⟨[⟨s, c, dp,
        some (if ch.datapoints "odp0006" = some 1 then 0 else 1)⟩], []⟩) ∧
    (a.deviceId ≠ "9004" →
      set d s c dp .toggle = some ⟨[⟨s, c, dp,
        some (if ch.datapoints ("o" ++ dp.drop 1) = some 1
          then 0 else 1)⟩], []⟩) := by
  constructor
  · intro h
    simp only [set, hd, hch]
    rw [if_pos h]
  · intro h
    simp only [set, hd, hch]
    rw [if_neg h]

/-- C3 witness: toggling the on thermostat (`odp0006 = 1`) resolves to
0, and toggling the on switch (`odp0000 = 1`, read through the i/o key
swap from `idp0000`) also resolves to 0. -/
theorem c3_toggle_complement_witness :
    set sampleStore "TH1" "ch0" "idp000B" .toggle =
      some ⟨[⟨"TH1", "ch0", "idp000B", some 0⟩], []⟩ ∧
    set sampleStore "SW1" "ch0" "idp0000" .toggle =
      some ⟨[⟨"SW1", "ch0", "idp0000", some 0⟩], []⟩ := by
  constructor
  · have h := (c3_toggle_complement sampleStore "TH1" "ch0" "idp000B"
      thermoAct thermoChannel rfl rfl).1 rfl
    exact h.trans (by decide)
  · have h := (c3_toggle_complement sampleStore "SW1" "ch0" "idp0000"
      switchAct switchChannel rfl rfl).2 (by decide)
    exact h.trans (by decide)

/-- C4: resolving a signed delta writes the current `odp0002` value
plus the signed magnitude minus the fixed 21°C reference. -/
theorem c4_delta_offset (d : Store) (s c dp : String) (neg : Bool)
    (mag : ℚ) (a : Actuator) (ch : Channel) (v : ℚ)
    (hd : d s = some a) (hch : a.channels c = some ch)
    (hdp : ch.datapoints "odp0002" = some v) :
    set d s c dp (.delta neg mag) =
      some ⟨[⟨s, c, dp,
        some (v + (if neg then -mag else mag) - 21)⟩], []⟩ := by
  simp only [set, hd, hch, hdp, Option.map_some']

/-- C4 witness: with `odp0002 = 20.5` the thermostat `down` action
(delta `-0.5`) resolves to `20.5 - 0.5 - 21 = -1`. -/
theorem c4_delta_offset_witness :
    set sampleStore "TH1" "ch0" "idp0007" (.delta true (1/2)) =
      some ⟨[⟨"TH1", "ch0", "idp0007", some (-1)⟩], []⟩ := by
  have h := c4_delta_offset sampleStore "TH1" "ch0" "idp0007" true (1/2)
    thermoAct thermoChannel (41/2) rfl rfl rfl
  exact h.trans (by norm_num)

/-- C10: the toggle resolution is total in the current datapoint value:
whenever the output datapoint it reads (the thermostat's `odp0006`, or
the i/o-swapped key otherwise) is absent or holds any value other than
1, the resolved value is 1. -/
theorem c10_toggle_total (d : Store) (s c dp : String)
    (a : Actuator) (ch : Channel)
    (hd : d s = some a) (hch : a.channels c = some ch) :
    (a.deviceId = "9004" → ch.datapoints "odp0006" ≠ some 1 →
      set d s c dp .toggle = some ⟨[⟨s, c, dp, some 1⟩], []⟩) ∧
    (a.deviceId ≠ "9004" →
      ch.datapoints ("o" ++ dp.drop 1) ≠ some 1 →
      set d s c dp .toggle = some ⟨[⟨s, c, dp, some 1⟩], []⟩) := by
  constructor
  · intro h hv
    simp only [set, hd, hch]
    rw [if_pos h, if_neg hv]
  · intro h hv
    simp only [set, hd, hch]
    rw [if_neg h, if_neg hv]

/-- C10 witness: toggling a switch channel with an empty datapoint map
(the read of `odp0000` yields `undefined`) still resolves to 1. -/
theorem c10_toggle_total_witness :
    set sampleStore "SW2" "ch0" "idp0000" .toggle =
      some ⟨[⟨"SW2", "ch0", "idp0000", some 1⟩], []⟩ := by
  have h := (c10_toggle_total sampleStore "SW2" "ch0" "idp0000"
    bareSwitchAct emptyChannel rfl rfl).2 (by decide) (by decide)
  exact h

/-- C6: the type name `blind` is a pure alias: a `blind` request has
exactly the same outcome (message, effects or error) as the identical
`shutter` request. -/
theorem c6_blind_is_shutter (acts : Store) (s c a : String)
    (v : Option ℚ) :
    parse acts "blind" s c a v = parse acts "shutter" s c a v := by
  simp only [parse, aliasType]
  norm_num

/-- Whether a `parse` outcome is a success. -/
def isOk : POut → Bool
  | .ok _ _ => true
  | _ => false

/-- C7: a `scene`/`set` request on a scene entry present in the store
always succeeds and writes `odp0000 = 1` to the serial number stored in
the scene actuator's `serialNumber` back-reference — the physical
actuator owning the trigger — not to the caller-supplied identifier. -/
theorem c7_scene_targets_physical (acts : Store) (s c : String)
    (v : Option ℚ) (a : Actuator) (hd : acts s = some a) :
    isOk (parse acts "scene" s c "set" v) = true ∧
    sentWrites (parse acts "scene" s c "set" v) =
      [⟨a.serialNumber, c, "odp0000", some 1⟩] ∧
    scheduledWrites (parse acts "scene" s c "set" v) = [] := by
  simp [parse, aliasType, commands, hd, set, isOk, sentWrites,
    scheduledWrites]

/-- C7 witness: resolving the sample scene entry SC1 (back-reference
PHYS1) writes to PHYS1, not to SC1. -/
theorem c7_scene_targets_physical_witness :
    isOk (parse sampleStore "scene" "SC1" "ch0" "set" none) = true ∧
    sentWrites (parse sampleStore "scene" "SC1" "ch0" "set" none) =
      [⟨"PHYS1", "ch0", "odp0000", some 1⟩] ∧
    scheduledWrites (parse sampleStore "scene" "SC1" "ch0" "set" none) =
      [] := by
  have h := c7_scene_targets_physical sampleStore "SC1" "ch0" none
    sceneAct rfl
  exact ⟨h.1, h.2.1.trans (by decide), h.2.2⟩

/-- Helper: the final dispatch step of `parse` never yields a
returned error string, only success or a crash. -/
lemma isErr_dispatch (o : Option SetResult) (msg : String) :
    isErr (match o with
      | none => POut.crash
      | some eff => POut.ok msg eff) = false := by
  cases o <;> rfl

/-- C5: `parse` validates in a fixed order with the first failure
winning, each failure returned as a descriptive string: unknown type,
then unknown action, then serial number absent from the store, then —
only when the command-table entry declares a `deviceIds` allow-list —
membership of the actuator's deviceId; when validation passes no error
string is returned; and the four virtual types (switchgroup,
shuttergroup, scene, thermostat) carry no allow-list. -/
theorem c5_validation (acts : Store) (t s c a : String) (v : Option ℚ) :
    (commands v (aliasType t) = none →
      parse acts t s c a v =
        .err ("unknown command: \"" ++ aliasType t ++ "\"")) ∧
    (∀ entry, commands v (aliasType t) = some entry →
      entry.actions a = none →
      parse acts t s c a v =
        .err ("unknown action \"" ++ a ++ "\" for type \"" ++
          aliasType t ++ "\"")) ∧
    (∀ entry act, commands v (aliasType t) = some entry →
      entry.actions a = some act → acts s = none →
      parse acts t s c a v = .err ("actuator \"" ++ s ++ "\" not found")) ∧
    (∀ entry act actu ids, commands v (aliasType t) = some entry →
      entry.actions a = some act → acts s = some actu →
      entry.deviceIds = some ids → ids.contains actu.deviceId = false →
      parse acts t s c a v =
        .err ("actuator \"" ++ s ++ "\" (" ++ actu.typeName ++
          ") is not of type \"" ++ aliasType t ++ "\"")) ∧
    (∀ entry act actu, commands v (aliasType t) = some entry →
      entry.actions a = some act → acts s = some actu →
      (entry.deviceIds = none ∨
        ∃ ids, entry.deviceIds = some ids ∧
          ids.contains actu.deviceId = true) →
      isErr (parse acts t s c a v) = false) ∧
    ((aliasType t = "switchgroup" ∨ aliasType t = "shuttergroup" ∨
      aliasType t = "scene" ∨ aliasType t = "thermostat") →
      (commands v (aliasType t)).map CommandEntry.deviceIds = some none) := by
  refine ⟨?_, ?_, ?_, ?_, ?_, ?_⟩
  · intro h
    simp only [parse, h]
  · intro entry he ha
    simp only [parse, he, ha]
  · intro entry act he ha hs
    simp only [parse, he, ha, hs]
  · intro entry act actu ids he ha hs hids hmem
    simp only [parse, he, ha, hs, hids, hmem]
    rw [if_neg]
    exact Bool.false_ne_true
  · intro entry act actu he ha hs hdev
    have hok : (match entry.deviceIds with
        | none => true
        | some ids => ids.contains actu.deviceId) = true := by
      rcases hdev with h0 | ⟨ids, hids, hmem⟩
      · rw [h0]
      · rw [hids]; exact hmem
    simp only [parse, he, ha, hs, hok]
    rw [if_pos trivial]
    split <;> rfl
  · intro h
    rcases h with h | h | h <;> try rw [h]
    all_goals try rfl
    rcases h with h | h <;> rw [h] <;> rfl

/-- C5 witness: each validation outcome exercised on the sample
store at concrete inputs. -/
theorem c5_validation_witness :
    parse sampleStore "frobnicate" "SH1" "ch0" "up" none =
      .err "unknown command: \"frobnicate\"" ∧
    parse sampleStore "switch" "SW1" "ch0" "dim" none =
      .err "unknown action \"dim\" for type \"switch\"" ∧
    parse sampleStore "switch" "NOPE" "ch0" "on" none =
      .err "actuator \"NOPE\" not found" ∧
    parse sampleStore "switch" "SH1" "ch0" "on" none =
      .err
        "actuator \"SH1\" (Jalousieaktor 4-fach, REG) is not of type \"switch\"" ∧
    isErr (parse sampleStore "switch" "SW1" "ch0" "on" none) = false ∧
    (commands none "scene").map CommandEntry.deviceIds = some none := by
  refine ⟨?_, ?_, ?_, ?_, ?_, ?_⟩
  · exact ((c5_validation sampleStore "frobnicate" "SH1" "ch0" "up"
      none).1 rfl).trans (by decide)
  · exact ((c5_validation sampleStore "switch" "SW1" "ch0" "dim"
      none).2.1 _ rfl rfl).trans (by decide)
  · exact ((c5_validation sampleStore "switch" "NOPE" "ch0" "on"
      none).2.2.1 _ _ rfl rfl rfl).trans (by decide)
  · exact ((c5_validation sampleStore "switch" "SH1" "ch0" "on"
      none).2.2.2.1 _ _ _ _ rfl rfl rfl rfl rfl).trans (by decide)
  · exact (c5_validation sampleStore "switch" "SW1" "ch0" "on"
      none).2.2.2.2.1 _ _ _ rfl rfl rfl (Or.inr ⟨_, rfl, rfl⟩)
  · exact (c5_validation sampleStore "scene" "SC1" "ch0" "set"
      none).2.2.2.2.2 (Or.inr (Or.inr (Or.inl rfl)))

/-- Helper: full-refresh requests add up over concatenated effect
lists. -/
lemma countFullRefresh_append (xs ys : List Effect) :
    countFullRefresh (xs ++ ys) =
      countFullRefresh xs + countFullRefresh ys := by
  simp [countFullRefresh, List.filter_append]

/-- Helper: over any frame sequence from any state, the number of
full-refresh requests is 0 if the subscription latch is already set,
else 1 exactly when some frame is a hub-confirming presence. -/
lemma runStanzas_refresh_count (fs : List Frame) : ∀ s : Sess,
    countFullRefresh (runStanzas s fs).2 =
      if s.subscribed then 0
      else if fs.any isHubPresence then 1 else 0 := by
  induction fs with
  | nil =>
    intro s
    simp [runStanzas, countFullRefresh]
  | cons f fs ih =>
    intro s
    have hstep : (runStanzas s (f :: fs)).2 =
        (onStanza s f).2 ++ (runStanzas (onStanza s f).1 fs).2 := rfl
    rw [hstep, countFullRefresh_append]
    cases f with
    | update =>
      have h1 : onStanza s Frame.update =
          (s, [Effect.applyUpdate, Effect.publishStatus]) := rfl
      have h0 : countFullRefresh
          [Effect.applyUpdate, Effect.publishStatus] = 0 := rfl
      rw [h1, h0, Nat.zero_add, ih s]
      simp only [List.any_cons, isHubPresence, Bool.false_or]
    | rpcResult id =>
      by_cases h : id = s.lastping
      · have h1 : onStanza s (Frame.rpcResult id) =
            (s, [Effect.logPing]) := by
          simp [onStanza, h]
        have h0 : countFullRefresh [Effect.logPing] = 0 := rfl
        rw [h1, h0, Nat.zero_add, ih s]
        simp only [List.any_cons, isHubPresence, Bool.false_or]
      · have h1 : onStanza s (Frame.rpcResult id) =
            (s, [Effect.applyResponse, Effect.publishStatus]) := by
          simp [onStanza, h]
        have h0 : countFullRefresh
            [Effect.applyResponse, Effect.publishStatus] = 0 := rfl
        rw [h1, h0, Nat.zero_add, ih s]
        simp only [List.any_cons, isHubPresence, Bool.false_or]
    | presence b =>
      by_cases hs : s.subscribed
      · cases b
        · have h1 : onStanza s (Frame.presence false) = (s, []) := by
            simp [onStanza]
          have h0 : countFullRefresh ([] : List Effect) = 0 := rfl
          rw [h1, h0, Nat.zero_add, ih s]
          simp only [List.any_cons, isHubPresence, Bool.false_or]
        · have h1 : onStanza s (Frame.presence true) = (s, []) := by
            simp [onStanza, hs]
          have h0 : countFullRefresh ([] : List Effect) = 0 := rfl
          rw [h1, h0, Nat.zero_add, ih s]
          simp [hs]
      · cases b
        · have h1 : onStanza s (Frame.presence false) = (s, []) := by
            simp [onStanza]
          have h0 : countFullRefresh ([] : List Effect) = 0 := rfl
          rw [h1, h0, Nat.zero_add, ih s]
          simp only [List.any_cons, isHubPresence, Bool.false_or]
        · have h1 : onStanza s (Frame.presence true) =
              (⟨s.count, s.lastping, true⟩,
                [Effect.subscribedCall, Effect.fullRefresh]) := by
            simp [onStanza, hs]
          have h0 : countFullRefresh
              [Effect.subscribedCall, Effect.fullRefresh] = 1 := rfl
          rw [h1, h0, ih ⟨s.count, s.lastping, true⟩]
          simp [hs, List.any_cons, isHubPresence]
    | unknown =>
      have h1 : onStanza s Frame.unknown = (s, [Effect.logUnknown]) := rfl
      have h0 : countFullRefresh [Effect.logUnknown] = 0 := rfl
      rw [h1, h0, Nat.zero_add, ih s]
      simp only [List.any_cons, isHubPresence, Bool.false_or]

/-- C8: from the initial session state, a frame sequence triggers
exactly one full state refresh when it contains a hub-confirming
presence frame and none otherwise; in particular the refresh fires on
the first hub-confirming presence frame — any prefix without one
produces zero refreshes. -/
theorem c8_refresh_exactly_once :
    (∀ fs : List Frame,
      countFullRefresh (runStanzas initSess fs).2 =
        if fs.any isHubPresence then 1 else 0) ∧
    (∀ (fs : List Frame) (f : Frame), fs.any isHubPresence = false →
      isHubPresence f = true →
      countFullRefresh (runStanzas initSess (fs ++ [f])).2 = 1) := by
  constructor
  · intro fs
    simpa [initSess] using runStanzas_refresh_count fs initSess
  · intro fs f h hf
    have hc := runStanzas_refresh_count (fs ++ [f]) initSess
    simpa [initSess, List.any_append, h, hf] using hc

/-- C8 witness: concrete frame sequences — refresh fires once on the
first hub presence, repeated hub presences do not add another, and no
refresh happens before any hub presence. -/
theorem c8_refresh_exactly_once_witness :
    countFullRefresh (runStanzas initSess
      ([Frame.update, Frame.presence false] ++ [Frame.presence true])).2
      = 1 ∧
    countFullRefresh (runStanzas initSess
      [Frame.update, Frame.presence false, Frame.presence true,
        Frame.presence true]).2 = 1 ∧
    countFullRefresh (runStanzas initSess
      [Frame.update, Frame.presence false]).2 = 0 := by
  refine ⟨?_, ?_, ?_⟩
  · exact c8_refresh_exactly_once.2 [Frame.update, Frame.presence false]
      (Frame.presence true) (by decide) rfl
  · exact (c8_refresh_exactly_once.1 [Frame.update, Frame.presence false,
      Frame.presence true, Frame.presence true]).trans (by decide)
  · exact (c8_refresh_exactly_once.1
      [Frame.update, Frame.presence false]).trans (by decide)

/-- C9: the keepalive loop sends pings whose stanza ids are the
strictly increasing counter values, each re-armed 10 seconds
(10 * 1000 ms) after the previous send; and an RPC-result frame whose
id equals the most recently sent ping id produces only the trace log —
it is not forwarded to response handling and publishes no status. -/
theorem c9_keepalive_pings :
    (∀ (s : Sess) (n : Nat),
      (kaRun s n).2 = (List.range n).map
        (fun i => ⟨s.count + i + 1, 10 * 1000⟩)) ∧
    (∀ s : Sess,
      (keepAlive s).1.lastping = some (keepAlive s).2.id ∧
      onStanza (keepAlive s).1 (.rpcResult (some (keepAlive s).2.id)) =
        ((keepAlive s).1, [Effect.logPing]) ∧
      (onStanza (keepAlive s).1
        (.rpcResult (some (keepAlive s).2.id))).2.contains
          Effect.applyResponse = false ∧
      (onStanza (keepAlive s).1
        (.rpcResult (some (keepAlive s).2.id))).2.contains
          Effect.publishStatus = false) := by
  constructor
  · intro s n
    induction n generalizing s with
    | zero => simp [kaRun]
    | succ n ih =>
      have hstep : (kaRun s (n + 1)).2 =
          (keepAlive s).2 :: (kaRun (keepAlive s).1 n).2 := rfl
      rw [hstep, ih, List.range_succ_eq_map, List.map_cons,
        List.map_map, Nat.add_zero]
      have htail : (List.range n).map
          (fun i =>
            (⟨(keepAlive s).1.count + i + 1, 10 * 1000⟩ : PingMsg)) =
          (List.range n).map
          ((fun i => (⟨s.count + i + 1, 10 * 1000⟩ : PingMsg)) ∘
            Nat.succ) := by
        apply List.map_congr_left
        intro i _
        have harith : (keepAlive s).1.count + i + 1 =
            s.count + (i + 1) + 1 := by
          show s.count + 1 + i + 1 = s.count + (i + 1) + 1
          omega
        simp only [Function.comp_apply, harith]
      rw [htail]
      exact rfl
  · intro s
    refine ⟨rfl, ?_, ?_, ?_⟩ <;> simp [onStanza, keepAlive]

end Sysap
